import Mathlib

/-!
Verification development for the serve controller (ray/serve/controller.py).
The controller class is embedded shallowly: its hard state (backend map,
endpoint map with traffic policies, goal counter) becomes a record, every
request handler becomes a pure function returning a result together with the
post state, and the Python exception flow is represented with Except.
Collaborator components that live outside the analysed file (Routing State,
Workload State, configuration records) are modelled from the specification and
marked as such in their doc comments. Float-valued quantities (traffic weights,
warning deadlines) are represented with Rat.
-/

namespace ServeController

abbrev BackendTag := String
abbrev EndpointTag := String
abbrev ReplicaTag := String
abbrev NodeIp := String
abbrev GoalId := Nat
abbrev ActorHandle := String

/-- Association-list lookup, the model of a Python dict read (d.get(k)). -/
def lookupKey {α : Type} : List (String × α) → String → Option α
  | [], _ => none
  | p :: rest, k => if p.1 == k then some p.2 else lookupKey rest k

/-- Association-list write, the model of a Python dict write (d[k] = v):
the existing key is replaced in place, a fresh key is appended. -/
def setKey {α : Type} : List (String × α) → String → α → List (String × α)
  | [], k, v => [(k, v)]
  | p :: rest, k, v => if p.1 == k then (k, v) :: rest else p :: setKey rest k v

/-- Association-list delete, the model of a Python dict delete. -/
def removeKey {α : Type} : List (String × α) → String → List (String × α)
  | [], _ => []
  | p :: rest, k => if p.1 == k then rest else p :: removeKey rest k

/-- Modelled from the spec: ray.serve.config.BackendConfig is not under src/.
It is a pydantic record of per-backend options; we take a representative record
of three fields, enough to state the merge semantics of update_backend_config. -/
structure BackendConfig where
  numReplicas : Nat
  maxConcurrentQueries : Nat
  userConfig : Option String
deriving DecidableEq

/-- Modelled from the spec: the argument of update_backend_config is a pydantic
model where each field is either explicitly set or unset; dict(exclude_unset=True)
keeps only the set fields. An unset field is none. -/
structure BackendConfigOptions where
  numReplicas : Option Nat
  maxConcurrentQueries : Option Nat
  userConfig : Option (Option String)
deriving DecidableEq

/-- Modelled from the spec: pydantic copy with the update dictionary
dict(exclude_unset=True): each explicitly set field of the options replaces the
existing field, every unset field is left unchanged. -/
def BackendConfig.copyUpdate (c : BackendConfig) (o : BackendConfigOptions) : BackendConfig :=
  { numReplicas := o.numReplicas.getD c.numReplicas,
    maxConcurrentQueries := o.maxConcurrentQueries.getD c.maxConcurrentQueries,
    userConfig := o.userConfig.getD c.userConfig }

/-- Modelled from the spec: the user workload (backend_def) is a black box; we
record only the metadata the controller inspects: whether it is a class and, if
so, the names of its member functions (what inspect.getmembers returns). -/
structure BackendDef where
  defName : String
  isClass : Bool
  memberFunctions : List String
deriving DecidableEq

/-- Modelled from the spec: ray.serve.config.ReplicaConfig is not under src/;
the controller only reads its backend_def field. -/
structure ReplicaConfig where
  backendDef : BackendDef
deriving DecidableEq

/-- Modelled from the spec: create_backend_replica wraps the user workload so it
can run as a managed replica; the wrapper is opaque to the controller. -/
structure WorkerClass where
  wrapped : BackendDef
deriving DecidableEq

def create_backend_replica (d : BackendDef) : WorkerClass :=
  { wrapped := d }

structure BackendInfo where
  workerClass : WorkerClass
  version : Option String
  backendConfig : BackendConfig
  replicaConfig : ReplicaConfig
deriving DecidableEq

structure EndpointInfo where
  route : Option String
  methods : List String
  pythonMethods : List String
  legacy : Bool
deriving DecidableEq

/-- Modelled from the spec: Routing State stores, per endpoint, the EndpointInfo
plus the TrafficPolicy: the primary weighted split (traffic) and the shadow
fractions (shadows), with Rat standing in for float weights. These are the
"traffic" and "shadows" entries the controller reads from get_endpoints. -/
structure EndpointEntry where
  info : EndpointInfo
  traffic : List (BackendTag × Rat)
  shadows : List (BackendTag × Rat)
deriving DecidableEq

/-- The hard state of the controller: the Workload State backend map, the
Routing State endpoint map, and a counter supplying fresh goal ids. -/
structure ControllerState where
  backends : List (BackendTag × BackendInfo)
  endpoints : List (EndpointTag × EndpointEntry)
  nextGoalId : Nat
deriving DecidableEq

/-- The Python exceptions the embedded handlers can raise. -/
inductive PyError
  | valueError (msg : String)
  | keyError (msg : String)
  | assertionError
  | timeoutError
deriving DecidableEq

def isValueError {α : Type} : Except PyError α → Bool
  | .error (.valueError _) => true
  | _ => false

def isKeyError {α : Type} : Except PyError α → Bool
  | .error (.keyError _) => true
  | _ => false

def get_backend (st : ControllerState) (tag : BackendTag) : Option BackendInfo :=
  lookupKey st.backends tag

def get_endpoints (st : ControllerState) : List (EndpointTag × EndpointEntry) :=
  st.endpoints

def get_endpoint_route (st : ControllerState) (endpoint : EndpointTag) : Option String :=
  (lookupKey st.endpoints endpoint).bind (fun e => e.info.route)

/-- Modelled from the spec: Workload State collaborator deploy(tag, BackendInfo):
records the BackendInfo under the tag and returns a fresh GoalId. -/
def backend_state_deploy_backend (st : ControllerState) (tag : BackendTag)
    (info : BackendInfo) : GoalId × ControllerState :=
  (st.nextGoalId,
   { st with backends := setKey st.backends tag info, nextGoalId := st.nextGoalId + 1 })

/-- Modelled from the spec: Workload State collaborator delete(tag, force_kill):
absent tags yield no goal; otherwise the backend is removed and a teardown goal
is returned. -/
def backend_state_delete_backend (st : ControllerState) (tag : BackendTag)
    (_forceKill : Bool) : Option GoalId × ControllerState :=
  match lookupKey st.backends tag with
  | none => (none, st)
  | some _ =>
    (some st.nextGoalId,
     { st with backends := removeKey st.backends tag, nextGoalId := st.nextGoalId + 1 })

/-- Modelled from the spec: Routing State records EndpointInfo + TrafficPolicy
for the endpoint (shadow fractions start empty on a fresh policy). -/
def endpoint_state_create_endpoint (st : ControllerState) (endpoint : EndpointTag)
    (info : EndpointInfo) (traffic : List (BackendTag × Rat)) : ControllerState :=
  { st with endpoints :=
      setKey st.endpoints endpoint { info := info, traffic := traffic, shadows := [] } }

/-- Modelled from the spec: Routing State update of an endpoint entry, same
upsert as create. -/
def endpoint_state_update_endpoint (st : ControllerState) (endpoint : EndpointTag)
    (info : EndpointInfo) (traffic : List (BackendTag × Rat)) : ControllerState :=
  { st with endpoints :=
      setKey st.endpoints endpoint { info := info, traffic := traffic, shadows := [] } }

/-- Modelled from the spec: Routing State removes the routing entry; absent
endpoints are a no-op. -/
def endpoint_state_delete_endpoint (st : ControllerState) (endpoint : EndpointTag) :
    ControllerState :=
  { st with endpoints := removeKey st.endpoints endpoint }

/-- ServeController._validate_traffic_dict: iterate the traffic dictionary and
raise ValueError at the first backend that is not registered. -/
def validate_traffic_dict (st : ControllerState) :
    List (BackendTag × Rat) → Except PyError Unit
  | [] => .ok ()
  | p :: rest =>
    if (get_backend st p.1).isNone then
      .error (.valueError
        ("Attempted to assign traffic to a backend " ++ p.1 ++ " that is not registered."))
    else validate_traffic_dict st rest

/-- Modelled from the spec: HTTP Fleet State ensure_route_exists(endpoint, timeout):
waits up to timeoutS seconds for the route to become reachable; the oracle
reachableWithin says whether the route became reachable within that many
seconds; on expiry a timeout error is raised. -/
def ensure_http_route_exists (reachableWithin : EndpointTag → Nat → Bool)
    (endpoint : EndpointTag) (timeoutS : Nat) : Except PyError Unit :=
  if reachableWithin endpoint timeoutS then .ok () else .error .timeoutError

/-- ServeController.create_endpoint: under the write lock, validate the traffic
dictionary and record the EndpointInfo + TrafficPolicy; then, with the lock
released, block on ensure_http_route_exists with the literal timeout of 30
seconds. The first component is the call result, the second the post state. -/
def create_endpoint (reachableWithin : EndpointTag → Nat → Bool)
    (st : ControllerState) (endpoint : EndpointTag)
    (trafficDict : List (BackendTag × Rat)) (route : Option String)
    (methods : List String) : Except PyError Unit × ControllerState :=
  match validate_traffic_dict st trafficDict with
  | .error e => (.error e, st)
  | .ok _ =>
    let st1 := endpoint_state_create_endpoint st endpoint
      { route := route, methods := methods, pythonMethods := [], legacy := true }
      trafficDict
    (ensure_http_route_exists reachableWithin endpoint 30, st1)

/-- ServeController.delete_endpoint. -/
def delete_endpoint (st : ControllerState) (endpoint : EndpointTag) : ControllerState :=
  endpoint_state_delete_endpoint st endpoint

/-- The membership test of ServeController.delete_backend: the tag occurs in
the traffic dictionary or the shadow list of the endpoint entry. -/
def endpointReferences (e : EndpointEntry) (tag : BackendTag) : Bool :=
  e.traffic.any (fun p => p.1 == tag) || e.shadows.any (fun p => p.1 == tag)

/-- The for-loop of ServeController.delete_backend: the first endpoint whose
traffic policy or shadow list references the tag, if any. -/
def find_referencing_endpoint (tag : BackendTag) :
    List (EndpointTag × EndpointEntry) → Option EndpointTag
  | [] => none
  | p :: rest =>
    if endpointReferences p.2 tag then some p.1 else find_referencing_endpoint tag rest

/-- ServeController.delete_backend: raise ValueError if any endpoint still
references the backend, otherwise hand off to Workload State delete. -/
def delete_backend (st : ControllerState) (tag : BackendTag) (forceKill : Bool) :
    Except PyError (Option GoalId) × ControllerState :=
  match find_referencing_endpoint tag (get_endpoints st) with
  | some endpoint =>
    (.error (.valueError
      ("Backend " ++ tag ++ " is used by endpoint " ++ endpoint ++
       " and cannot be deleted. Please remove the backend from all endpoints and try again.")),
     st)
  | none =>
    let r := backend_state_delete_backend st tag forceKill
    (.ok r.1, r.2)

/-- ServeController.update_backend_config: ValueError when the tag is not
registered; otherwise build a new BackendInfo reusing the existing worker
class, version and replica config, with the partial options merged into the
existing backend config, and redeploy it. -/
def update_backend_config (st : ControllerState) (tag : BackendTag)
    (configOptions : BackendConfigOptions) : Except PyError GoalId × ControllerState :=
  match get_backend st tag with
  | none => (.error (.valueError ("Backend " ++ tag ++ " is not registered.")), st)
  | some existingInfo =>
    let backendInfo : BackendInfo :=
      { workerClass := existingInfo.workerClass,
        version := existingInfo.version,
        backendConfig := existingInfo.backendConfig.copyUpdate configOptions,
        replicaConfig := existingInfo.replicaConfig }
    let r := backend_state_deploy_backend st tag backendInfo
    (.ok r.1, r.2)

/-- Modelled from the spec: the full-method list installed by deploy. -/
def ALL_HTTP_METHODS : List String :=
  ["GET", "HEAD", "POST", "PUT", "DELETE", "CONNECT", "OPTIONS", "TRACE", "PATCH"]

/-- The inspect block of ServeController.deploy: member function names when the
workload is a class, the empty list otherwise. -/
def inspect_python_methods (d : BackendDef) : List String :=
  if d.isClass then d.memberFunctions else []

/-- The body of ServeController.deploy under the write lock: build the
BackendInfo, deploy it, and install the full-method endpoint with a single
100 percent weighted traffic policy on the deployment name. -/
def deployLocked (st : ControllerState) (name : String) (backendConfig : BackendConfig)
    (replicaConfig : ReplicaConfig) (version : Option String)
    (routePfx : Option String) : Except PyError (Option GoalId) × ControllerState :=
  let pythonMethods := inspect_python_methods replicaConfig.backendDef
  let backendInfo : BackendInfo :=
    { workerClass := create_backend_replica replicaConfig.backendDef,
      version := version,
      backendConfig := backendConfig,
      replicaConfig := replicaConfig }
  let r := backend_state_deploy_backend st name backendInfo
  let endpointInfo : EndpointInfo :=
    { route := routePfx, methods := ALL_HTTP_METHODS,
      pythonMethods := pythonMethods, legacy := false }
  let st2 := endpoint_state_update_endpoint r.2 name endpointInfo [(name, (1 : Rat))]
  (.ok (some r.1), st2)

/-- The Python str.startswith test: the characters of the candidate string are
a prefix of the characters of the receiver. -/
def pystartswith (s pre : String) : Bool :=
  pre.data.isPrefixOf s.data

/-- ServeController.deploy: the leading assertion requires every non-None route
to start with a slash; a failing assertion raises before anything is read or
mutated. -/
def deploy (st : ControllerState) (name : String) (backendConfig : BackendConfig)
    (replicaConfig : ReplicaConfig) (version : Option String)
    (routePfx : Option String) : Except PyError (Option GoalId) × ControllerState :=
  match routePfx with
  | some p =>
    if pystartswith p "/" then
      deployLocked st name backendConfig replicaConfig version routePfx
    else (.error .assertionError, st)
  | none => deployLocked st name backendConfig replicaConfig version routePfx

/-- ServeController.delete_deployment: remove the endpoint of the deployment,
then hand the backend straight to Workload State delete, with no reference
validation anywhere. -/
def delete_deployment (st : ControllerState) (name : String) :
    Except PyError (Option GoalId) × ControllerState :=
  let st1 := endpoint_state_delete_endpoint st name
  let r := backend_state_delete_backend st1 name false
  (.ok r.1, r.2)

/-- ServeController.get_deployment_info: a read-only accessor (the Python body
only calls get_backend and get_endpoint_route, mutating nothing); KeyError when
the deployment does not exist, otherwise the BackendInfo and the route. -/
def get_deployment_info (st : ControllerState) (name : String) :
    Except PyError (BackendInfo × Option String) :=
  match get_backend st name with
  | none => .error (.keyError ("Deployment " ++ name ++ " does not exist."))
  | some info => .ok (info, get_endpoint_route st name)

/-- ServeController._actor_handle_matches_node: the node check is mocked, the
function just returns the flag it is given (node ip and handle are ignored). -/
def actor_handle_matches_node (_nodeIp : NodeIp) (_actorHandle : ActorHandle)
    (mockVariable : Bool) : Bool :=
  mockVariable

/-- The target_backends counting of _handle_warning: insert-or-increment. -/
def bumpCount (l : List (BackendTag × Nat)) (k : BackendTag) : List (BackendTag × Nat) :=
  if l.any (fun p => p.1 == k) then
    l.map (fun p => if p.1 == k then (p.1, p.2 + 1) else p)
  else l ++ [(k, 1)]

/-- Accumulator of the nested loops of _handle_warning: the counted backends,
the collected actor handles, and the mock_variable flag threaded through. -/
structure WarnAcc where
  targetBackends : List (BackendTag × Nat)
  targetActors : List ActorHandle
  mockVariable : Bool
deriving DecidableEq

/-- One iteration of the inner loop of _handle_warning over a replica of the
given backend: when the (mocked) node check succeeds, clear the flag, bump the
backend count and collect the handle. -/
def warnStepReplica (nodeIp : NodeIp) (backend : BackendTag) (acc : WarnAcc)
    (ta : ReplicaTag × ActorHandle) : WarnAcc :=
  if actor_handle_matches_node nodeIp ta.2 acc.mockVariable then
    { targetBackends := bumpCount acc.targetBackends backend,
      targetActors := acc.targetActors ++ [ta.2],
      mockVariable := false }
  else acc

/-- The nested for-loops of _handle_warning over _all_replica_handles. -/
def warnScan (nodeIp : NodeIp)
    (handles : List (BackendTag × List (ReplicaTag × ActorHandle))) : WarnAcc :=
  handles.foldl (fun acc bp => bp.2.foldl (warnStepReplica nodeIp bp.1) acc)
    { targetBackends := [], targetActors := [], mockVariable := true }

/-- The increment loop of _handle_warning on the target replica counts. -/
def incrementTargets (tr : BackendTag → Int) (tb : List (BackendTag × Nat)) :
    BackendTag → Int :=
  tb.foldl (fun m p => fun b => if b == p.1 then m b + (p.2 : Int) else m b) tr

/-- ServeController._rescale_after_warning_expires: the decrement loop run by
the timer at time_left seconds, over the same target_backends dictionary. -/
def rescale_after_warning_expires (tr : BackendTag → Int)
    (tb : List (BackendTag × Nat)) : BackendTag → Int :=
  tb.foldl (fun m p => fun b => if b == p.1 then m b - (p.2 : Int) else m b) tr

/-- ServeController._graceful_shutdown_before_shutoff: the handles that receive
the drain_pending_queries signal. -/
def graceful_shutdown_before_shutoff (targetActors : List ActorHandle) :
    List ActorHandle :=
  targetActors

/-- The two timers scheduled by _handle_warning, as data: the counted backends
and collected handles, the drain deadline (time_left - 5) and the rescale
deadline (time_left). -/
structure WarningPlan where
  targetBackends : List (BackendTag × Nat)
  targetActors : List ActorHandle
  drainDelay : Rat
  rescaleDelay : Rat
deriving DecidableEq

/-- ServeController._handle_warning: scan all replica handles with the mocked
node check, increment the affected target replica counts, and schedule the
drain timer at time_left - 5 and the rescale timer at time_left. Returns the
new target replica counts and the scheduled plan. -/
def handle_warning (tr : BackendTag → Int)
    (handles : List (BackendTag × List (ReplicaTag × ActorHandle)))
    (nodeIp : NodeIp) (timeLeft : Rat) : (BackendTag → Int) × WarningPlan :=
  let acc := warnScan nodeIp handles
  (incrementTargets tr acc.targetBackends,
   { targetBackends := acc.targetBackends,
     targetActors := acc.targetActors,
     drainDelay := timeLeft - 5,
     rescaleDelay := timeLeft })

/-- State visible to one control-loop tick: the HTTP Fleet State, the Workload
State, and the error log. The two reconcile calls are parameters since their
bodies live outside the analysed file. -/
structure LoopState (H B : Type) where
  http : H
  backend : B
  log : List String

/-- One tick of ServeController.run_control_loop under the write lock: call the
HTTP state update inside its own try/except that only logs, then the backend
state update inside its own try/except that only logs. -/
def control_loop_tick {H B : Type} (httpUpdate : H → Except String H)
    (backendUpdate : B → Except String B) (s : LoopState H B) : LoopState H B :=
  let s1 :=
    match httpUpdate s.http with
    | .ok h => { s with http := h }
    | .error e => { s with log := s.log ++ ["Exception updating HTTP state: " ++ e] }
  match backendUpdate s1.backend with
  | .ok b => { s1 with backend := b }
  | .error e => { s1 with log := s1.log ++ ["Exception updating backend state: " ++ e] }

/-- The while-True loop of run_control_loop, unrolled to n ticks. -/
def run_control_loop_ticks {H B : Type} (httpUpdate : H → Except String H)
    (backendUpdate : B → Except String B) (s : LoopState H B) : Nat → LoopState H B
  | 0 => s
  | n + 1 => control_loop_tick httpUpdate backendUpdate
      (run_control_loop_ticks httpUpdate backendUpdate s n)

/-- The total amount the increment and decrement loops add or subtract at one
backend tag: the sum of the counts recorded for that tag. -/
def matchSum (tb : List (BackendTag × Nat)) (b : BackendTag) : Int :=
  (tb.map (fun p => if b == p.1 then (p.2 : Int) else 0)).sum

def wc1Info : BackendInfo :=
  { workerClass := { wrapped := { defName := "f", isClass := false, memberFunctions := [] } },
    version := some "v1",
    backendConfig := { numReplicas := 1, maxConcurrentQueries := 8, userConfig := none },
    replicaConfig := { backendDef := { defName := "f", isClass := false, memberFunctions := [] } } }

def wc1Entry : EndpointEntry :=
  { info := { route := some "/e1", methods := ["GET"], pythonMethods := [], legacy := true },
    traffic := [("b1", 1)],
    shadows := [] }

def wc1St : ControllerState :=
  { backends := [("b1", wc1Info)], endpoints := [("e1", wc1Entry)], nextGoalId := 0 }

def wc3Info : BackendInfo :=
  { workerClass := { wrapped := { defName := "f3", isClass := false, memberFunctions := [] } },
    version := some "v1",
    backendConfig := { numReplicas := 1, maxConcurrentQueries := 8, userConfig := none },
    replicaConfig := { backendDef := { defName := "f3", isClass := false, memberFunctions := [] } } }

def wc3St : ControllerState :=
  { backends := [("d", wc3Info)],
    endpoints :=
      [("e2",
        { info := { route := some "/e2", methods := ["GET"], pythonMethods := [], legacy := true },
          traffic := [("d", 1)],
          shadows := [] })],
    nextGoalId := 7 }

def wc4St : ControllerState := { backends := [], endpoints := [], nextGoalId := 0 }

def wc7Info : BackendInfo :=
  { workerClass := { wrapped := { defName := "f7", isClass := false, memberFunctions := [] } },
    version := none,
    backendConfig := { numReplicas := 1, maxConcurrentQueries := 8, userConfig := none },
    replicaConfig := { backendDef := { defName := "f7", isClass := false, memberFunctions := [] } } }

def wc7St : ControllerState :=
  { backends := [("b2", wc7Info)], endpoints := [], nextGoalId := 0 }

def wc8Def : BackendDef := { defName := "g", isClass := true, memberFunctions := ["m"] }

def wc8Info : BackendInfo :=
  { workerClass := { wrapped := wc8Def },
    version := some "v2",
    backendConfig := { numReplicas := 2, maxConcurrentQueries := 10, userConfig := none },
    replicaConfig := { backendDef := wc8Def } }

def wc8St : ControllerState :=
  { backends := [("b1", wc8Info)], endpoints := [], nextGoalId := 3 }

def wc8Opts : BackendConfigOptions :=
  { numReplicas := some 5, maxConcurrentQueries := none, userConfig := none }

def wc9Def : BackendDef := { defName := "h9", isClass := false, memberFunctions := [] }

def wc9Bc : BackendConfig := { numReplicas := 1, maxConcurrentQueries := 4, userConfig := none }

def wc9Rc : ReplicaConfig := { backendDef := wc9Def }

def wc9St : ControllerState := { backends := [], endpoints := [], nextGoalId := 0 }

def wc10Def : BackendDef := { defName := "k", isClass := false, memberFunctions := [] }

def wc10Info : BackendInfo :=
  { workerClass := { wrapped := wc10Def },
    version := none,
    backendConfig := { numReplicas := 1, maxConcurrentQueries := 2, userConfig := none },
    replicaConfig := { backendDef := wc10Def } }

def wc10St : ControllerState :=
  { backends := [("b", wc10Info)],
    endpoints :=
      [("b",
        { info := { route := some "/b", methods := ["GET"], pythonMethods := [], legacy := true },
          traffic := [("b", 1)],
          shadows := [] })],
    nextGoalId := 1 }

theorem lookupKey_setKey_self {α : Type} (l : List (String × α)) (k : String) (v : α) :
    lookupKey (setKey l k v) k = some v := by
  induction l with
  | nil => simp [setKey, lookupKey]
  | cons p rest ih =>
    by_cases h : p.1 == k
    · simp [setKey, h, lookupKey]
    · simp [setKey, h, lookupKey, ih]

theorem lookupKey_setKey_ne {α : Type} (l : List (String × α)) (k k2 : String) (v : α)
    (h : k2 ≠ k) : lookupKey (setKey l k v) k2 = lookupKey l k2 := by
  induction l with
  | nil =>
    have hk : (k == k2) = false := by simpa using Ne.symm h
    simp [setKey, lookupKey, hk]
  | cons p rest ih =>
    by_cases hp : p.1 == k
    · have hpk : p.1 = k := by simpa using hp
      have hk : (k == k2) = false := by simpa using Ne.symm h
      have hpk2 : (p.1 == k2) = false := by simp [hpk, hk]
      simp [setKey, hp, lookupKey, hk, hpk2]
    · simp [setKey, hp, lookupKey, ih]

theorem removeKey_of_lookupKey_none {α : Type} (l : List (String × α)) (k : String)
    (h : lookupKey l k = none) : removeKey l k = l := by
  induction l with
  | nil => rfl
  | cons p rest ih =>
    rw [lookupKey] at h
    by_cases hp : p.1 == k
    · simp [hp] at h
    · simp [hp] at h
      simp [removeKey, hp, ih h]

theorem validate_traffic_dict_unregistered (st : ControllerState)
    (td : List (BackendTag × Rat)) (h : ∃ p ∈ td, get_backend st p.1 = none) :
    ∃ m, validate_traffic_dict st td = .error (.valueError m) := by
  induction td with
  | nil => simp at h
  | cons q rest ih =>
    by_cases hq : (get_backend st q.1).isNone
    · exact ⟨"Attempted to assign traffic to a backend " ++ q.1 ++ " that is not registered.",
        by simp [validate_traffic_dict, hq]⟩
    · obtain ⟨p, hp, hnone⟩ := h
      rcases List.mem_cons.mp hp with heq | hmem
      · rw [heq] at hnone
        exact absurd (Option.isNone_iff_eq_none.mpr hnone) hq
      · obtain ⟨m, hm⟩ := ih ⟨p, hmem, hnone⟩
        exact ⟨m, by simp [validate_traffic_dict, hq, hm]⟩

theorem find_referencing_endpoint_of_mem (tag : BackendTag)
    (l : List (EndpointTag × EndpointEntry))
    (h : ∃ p ∈ l, endpointReferences p.2 tag = true) :
    ∃ e, find_referencing_endpoint tag l = some e := by
  induction l with
  | nil => simp at h
  | cons q rest ih =>
    by_cases hq : endpointReferences q.2 tag = true
    · exact ⟨q.1, by simp [find_referencing_endpoint, hq]⟩
    · obtain ⟨p, hp, href⟩ := h
      rcases List.mem_cons.mp hp with heq | hmem
      · rw [heq] at href
        exact absurd href hq
      · obtain ⟨e, he⟩ := ih ⟨p, hmem, href⟩
        exact ⟨e, by simp [find_referencing_endpoint, hq, he]⟩

theorem incrementTargets_apply (tb : List (BackendTag × Nat)) (tr : BackendTag → Int)
    (b : BackendTag) : incrementTargets tr tb b = tr b + matchSum tb b := by
  induction tb generalizing tr with
  | nil => simp [incrementTargets, matchSum]
  | cons p ts ih =>
    have h1 : incrementTargets tr (p :: ts) b
        = incrementTargets (fun b2 => if b2 == p.1 then tr b2 + (p.2 : Int) else tr b2) ts b := rfl
    rw [h1, ih]
    by_cases hb : b = p.1 <;> (simp [matchSum, hb]; try ring)

theorem rescale_apply (tb : List (BackendTag × Nat)) (tr : BackendTag → Int)
    (b : BackendTag) : rescale_after_warning_expires tr tb b = tr b - matchSum tb b := by
  induction tb generalizing tr with
  | nil => simp [rescale_after_warning_expires, matchSum]
  | cons p ts ih =>
    have h1 : rescale_after_warning_expires tr (p :: ts) b
        = rescale_after_warning_expires (fun b2 => if b2 == p.1 then tr b2 - (p.2 : Int) else tr b2) ts b := rfl
    rw [h1, ih]
    by_cases hb : b = p.1 <;> (simp [matchSum, hb]; try ring)

/-- C1: whenever any endpoint traffic policy or shadow list references the
backend tag, delete_backend fails with a validation error (the ValueError the
Python code raises before anything is mutated) and the whole controller state,
backends, endpoints and traffic policies alike, is left unchanged. -/
theorem delete_backend_blocked_when_referenced (st : ControllerState) (tag : BackendTag)
    (forceKill : Bool) (h : ∃ p ∈ st.endpoints, endpointReferences p.2 tag = true) :
    isValueError (delete_backend st tag forceKill).1 = true
    ∧ (delete_backend st tag forceKill).2 = st := by
  obtain ⟨e, he⟩ := find_referencing_endpoint_of_mem tag st.endpoints h
  unfold delete_backend
  rw [show get_endpoints st = st.endpoints from rfl, he]
  exact ⟨rfl, rfl⟩

theorem delete_backend_blocked_witness :
    isValueError (delete_backend wc1St "b1" false).1 = true
    ∧ (delete_backend wc1St "b1" false).2 = wc1St :=
  delete_backend_blocked_when_referenced wc1St "b1" false
    ⟨("e1", wc1Entry), by decide, by decide⟩

/-- C2: at the failing input of a node holding three replicas of backend B with
time_left 20, the mocked node check of _actor_handle_matches_node is true only
for the first replica examined (the node ip is ignored entirely), so the target
replica count of B rises by 1 rather than 3 and the drain timer is aimed at the
first handle only, scheduled at time_left - 5. -/
theorem handle_warning_mock_counts_single_replica :
    (handle_warning (fun _ => 5)
        [("B", [("r1", "h1"), ("r2", "h2"), ("r3", "h3")])] "10.0.0.1" 20).2.targetBackends
      = [("B", 1)]
    ∧ (handle_warning (fun _ => 5)
        [("B", [("r1", "h1"), ("r2", "h2"), ("r3", "h3")])] "10.0.0.1" 20).2.targetActors
      = ["h1"]
    ∧ graceful_shutdown_before_shutoff
        (handle_warning (fun _ => 5)
          [("B", [("r1", "h1"), ("r2", "h2"), ("r3", "h3")])] "10.0.0.1" 20).2.targetActors
      = ["h1"]
    ∧ (handle_warning (fun _ => 5)
        [("B", [("r1", "h1"), ("r2", "h2"), ("r3", "h3")])] "10.0.0.1" 20).1 "B" = 6
    ∧ (handle_warning (fun _ => 5)
        [("B", [("r1", "h1"), ("r2", "h2"), ("r3", "h3")])] "10.0.0.1" 20).2.drainDelay = 15 := by
  exact ⟨by decide, by decide, by decide, by decide, show (20 : Rat) - 5 = 15 by norm_num⟩

/-- C3 counterexample: in a state where endpoint e2 still references backend d,
delete_deployment d does not fail with a validation error; it succeeds and the
backend is gone afterwards, refuting the claim that the call fails whenever a
reference remains. -/
theorem delete_deployment_skips_validation_cex :
    (wc3St.endpoints.any (fun p => endpointReferences p.2 "d")) = true
    ∧ isValueError (delete_deployment wc3St "d").1 = false
    ∧ ((delete_deployment wc3St "d").1).isOk = true
    ∧ lookupKey (delete_deployment wc3St "d").2.backends "d" = none := by
  exact ⟨by decide, by decide, by decide, by decide⟩

/-- C3 amended: delete_deployment performs no reference validation at all; it
always succeeds, unconditionally removes the endpoint of the given name and
requests backend teardown (the Workload State delete, which yields a goal when
the backend existed), even when other endpoints still reference the backend. -/
theorem delete_deployment_never_validates (st : ControllerState) (name : String) :
    ((delete_deployment st name).1).isOk = true
    ∧ (delete_deployment st name).2.endpoints = removeKey st.endpoints name
    ∧ (delete_deployment st name).2.backends = removeKey st.backends name := by
  unfold delete_deployment backend_state_delete_backend endpoint_state_delete_endpoint
  cases h : lookupKey st.backends name with
  | none => simp [h, Except.isOk, Except.toBool, removeKey_of_lookupKey_none st.backends name h]
  | some info => simp [h, Except.isOk, Except.toBool]

/-- C4: create_endpoint with a traffic dictionary naming an unregistered
backend fails with a validation error raised before any mutation: the state
afterwards equals the state before, and when no endpoint of that name existed
before the call, none exists after it. -/
theorem create_endpoint_unregistered_rejected (o : EndpointTag → Nat → Bool)
    (st : ControllerState) (endpoint : EndpointTag) (td : List (BackendTag × Rat))
    (route : Option String) (methods : List String)
    (h : ∃ p ∈ td, get_backend st p.1 = none) :
    isValueError (create_endpoint o st endpoint td route methods).1 = true
    ∧ (create_endpoint o st endpoint td route methods).2 = st
    ∧ (lookupKey st.endpoints endpoint = none →
        lookupKey (create_endpoint o st endpoint td route methods).2.endpoints endpoint = none) := by
  obtain ⟨m, hm⟩ := validate_traffic_dict_unregistered st td h
  unfold create_endpoint
  rw [hm]
  exact ⟨rfl, rfl, fun hn => hn⟩

theorem create_endpoint_unregistered_witness :
    isValueError (create_endpoint (fun _ _ => true) wc4St "foo" [("b1", 1)] (some "/foo") ["GET"]).1 = true
    ∧ (create_endpoint (fun _ _ => true) wc4St "foo" [("b1", 1)] (some "/foo") ["GET"]).2 = wc4St
    ∧ lookupKey (create_endpoint (fun _ _ => true) wc4St "foo" [("b1", 1)] (some "/foo") ["GET"]).2.endpoints "foo" = none := by
  have h := create_endpoint_unregistered_rejected (fun _ _ => true) wc4St "foo"
    [("b1", 1)] (some "/foo") ["GET"] ⟨("b1", 1), by decide, by decide⟩
  exact ⟨h.1, h.2.1, h.2.2 rfl⟩

/-- C5: one control-loop tick applies the two reconcile calls in isolation: the
resulting HTTP component depends only on the HTTP update outcome and the
backend component only on the backend update outcome (so a failure of either
never prevents the other), every failure is recorded in the log instead of
being surfaced, and the unrolled loop always proceeds to the next tick. -/
theorem control_loop_tick_isolates_failures (H B : Type)
    (httpUpdate : H → Except String H) (backendUpdate : B → Except String B)
    (s : LoopState H B) :
    ((control_loop_tick httpUpdate backendUpdate s).http
        = match httpUpdate s.http with | .ok h => h | .error _ => s.http)
    ∧ ((control_loop_tick httpUpdate backendUpdate s).backend
        = match backendUpdate s.backend with | .ok b => b | .error _ => s.backend)
    ∧ (∀ e, httpUpdate s.http = .error e →
        ("Exception updating HTTP state: " ++ e)
          ∈ (control_loop_tick httpUpdate backendUpdate s).log)
    ∧ (∀ e, backendUpdate s.backend = .error e →
        ("Exception updating backend state: " ++ e)
          ∈ (control_loop_tick httpUpdate backendUpdate s).log)
    ∧ (∀ n, run_control_loop_ticks httpUpdate backendUpdate s (n + 1)
        = control_loop_tick httpUpdate backendUpdate
            (run_control_loop_ticks httpUpdate backendUpdate s n)) := by
  refine ⟨?_, ?_, ?_, ?_, fun n => rfl⟩
  · unfold control_loop_tick
    cases h1 : httpUpdate s.http <;> cases h2 : backendUpdate s.backend <;> simp [h1, h2]
  · unfold control_loop_tick
    cases h1 : httpUpdate s.http <;> cases h2 : backendUpdate s.backend <;> simp [h1, h2]
  · intro e he
    unfold control_loop_tick
    cases h2 : backendUpdate s.backend <;> simp [he, h2]
  · intro e he
    unfold control_loop_tick
    cases h1 : httpUpdate s.http <;> simp [h1, he]

theorem control_loop_tick_witness :
    ("Exception updating HTTP state: boom")
      ∈ (control_loop_tick (fun _ : Nat => Except.error "boom")
          (fun n : Nat => Except.ok (n + 1))
          { http := 0, backend := 0, log := [] }).log
    ∧ (control_loop_tick (fun _ : Nat => Except.error "boom")
        (fun n : Nat => Except.ok (n + 1))
        { http := 0, backend := 0, log := [] }).backend = 1 := by
  have h := control_loop_tick_isolates_failures Nat Nat (fun _ => Except.error "boom")
    (fun n => Except.ok (n + 1)) { http := 0, backend := 0, log := [] }
  exact ⟨h.2.2.1 "boom" rfl, h.2.1.trans rfl⟩

/-- C6: the rescale timer of a preemption warning undoes exactly the increment
the warning applied: for every backend tag the target replica count after
rescale_after_warning_expires on the plan of handle_warning equals the count
before the warning. -/
theorem preemption_rollback_restores_targets (tr : BackendTag → Int)
    (handles : List (BackendTag × List (ReplicaTag × ActorHandle)))
    (nodeIp : NodeIp) (timeLeft : Rat) (b : BackendTag) :
    rescale_after_warning_expires (handle_warning tr handles nodeIp timeLeft).1
      (handle_warning tr handles nodeIp timeLeft).2.targetBackends b = tr b := by
  have h1 : (handle_warning tr handles nodeIp timeLeft).1
      = incrementTargets tr (warnScan nodeIp handles).targetBackends := rfl
  have h2 : (handle_warning tr handles nodeIp timeLeft).2.targetBackends
      = (warnScan nodeIp handles).targetBackends := rfl
  rw [h1, h2, rescale_apply, incrementTargets_apply]
  ring

/-- C7: once validation has succeeded, the endpoint mutation is committed
before the post-lock reachability wait starts: the post state is the same for
every reachability outcome, the call depends on the oracle only through the
fixed 30 second ceiling, the endpoint exists afterwards, and the call reports a
timeout exactly when the route did not become reachable within 30 seconds. -/
theorem create_endpoint_wait_no_rollback (o o2 : EndpointTag → Nat → Bool)
    (st : ControllerState) (endpoint : EndpointTag) (td : List (BackendTag × Rat))
    (route : Option String) (methods : List String)
    (hv : validate_traffic_dict st td = .ok ()) :
    ((create_endpoint o st endpoint td route methods).2
        = (create_endpoint o2 st endpoint td route methods).2)
    ∧ (o endpoint 30 = o2 endpoint 30 →
        create_endpoint o st endpoint td route methods
          = create_endpoint o2 st endpoint td route methods)
    ∧ (lookupKey (create_endpoint o st endpoint td route methods).2.endpoints endpoint).isSome = true
    ∧ ((create_endpoint o st endpoint td route methods).1 = .error .timeoutError
        ↔ o endpoint 30 = false) := by
  unfold create_endpoint
  rw [hv]
  refine ⟨rfl, ?_, ?_, ?_⟩
  · intro h
    simp [ensure_http_route_exists, h]
  · simp [endpoint_state_create_endpoint, lookupKey_setKey_self]
  · unfold ensure_http_route_exists
    cases h : o endpoint 30 <;> simp [h]

theorem create_endpoint_wait_witness :
    (lookupKey (create_endpoint (fun _ _ => false) wc7St "foo" [("b2", 1)] (some "/foo") ["GET"]).2.endpoints "foo").isSome = true
    ∧ (create_endpoint (fun _ _ => false) wc7St "foo" [("b2", 1)] (some "/foo") ["GET"]).1 = .error .timeoutError := by
  have h := create_endpoint_wait_no_rollback (fun _ _ => false) (fun _ _ => true) wc7St "foo"
    [("b2", 1)] (some "/foo") ["GET"] rfl
  exact ⟨h.2.2.1, h.2.2.2.mpr rfl⟩

/-- C8: update_backend_config fails with a validation error and changes nothing
when the tag is unregistered; when registered, the redeployed BackendInfo keeps
the existing worker class, version and replica config, its backend config takes
the explicitly set option fields and keeps every unset field, a goal id is
returned, and every other backend is untouched. -/
theorem update_backend_config_spec (st : ControllerState) (tag : BackendTag)
    (configOptions : BackendConfigOptions) :
    (get_backend st tag = none →
      isValueError (update_backend_config st tag configOptions).1 = true
      ∧ (update_backend_config st tag configOptions).2 = st)
    ∧ (∀ existingInfo, get_backend st tag = some existingInfo →
      (update_backend_config st tag configOptions).1 = .ok st.nextGoalId
      ∧ get_backend (update_backend_config st tag configOptions).2 tag = some
          { workerClass := existingInfo.workerClass,
            version := existingInfo.version,
            backendConfig :=
              { numReplicas := configOptions.numReplicas.getD existingInfo.backendConfig.numReplicas,
                maxConcurrentQueries :=
                  configOptions.maxConcurrentQueries.getD existingInfo.backendConfig.maxConcurrentQueries,
                userConfig := configOptions.userConfig.getD existingInfo.backendConfig.userConfig },
            replicaConfig := existingInfo.replicaConfig }
      ∧ ∀ other, other ≠ tag →
          get_backend (update_backend_config st tag configOptions).2 other
            = get_backend st other) := by
  constructor
  · intro h
    unfold update_backend_config
    rw [h]
    exact ⟨rfl, rfl⟩
  · intro existingInfo h
    unfold update_backend_config
    rw [h]
    refine ⟨rfl, ?_, ?_⟩
    · show lookupKey (setKey st.backends tag _) tag = _
      rw [lookupKey_setKey_self]
      rfl
    · intro other hne
      show lookupKey (setKey st.backends tag _) other = _
      rw [lookupKey_setKey_ne st.backends tag other _ hne]
      rfl

theorem update_backend_config_witness :
    (update_backend_config wc8St "b1" wc8Opts).1 = .ok 3
    ∧ get_backend (update_backend_config wc8St "b1" wc8Opts).2 "b1" = some
        { workerClass := { wrapped := wc8Def },
          version := some "v2",
          backendConfig := { numReplicas := 5, maxConcurrentQueries := 10, userConfig := none },
          replicaConfig := { backendDef := wc8Def } }
    ∧ get_backend (update_backend_config wc8St "b1" wc8Opts).2 "zz" = get_backend wc8St "zz"
    ∧ isValueError (update_backend_config wc8St "zz" wc8Opts).1 = true := by
  have h := (update_backend_config_spec wc8St "b1" wc8Opts).2 wc8Info rfl
  have h0 := (update_backend_config_spec wc8St "zz" wc8Opts).1 rfl
  exact ⟨h.1, h.2.1, h.2.2 "zz" (by decide), h0.1⟩

/-- C9: deploy requires every non-None route to start with a slash: when it
does not, the assertion fails before any state is read or mutated and the state
is returned untouched; under the precondition that any present route starts
with a slash, the assertion branch is unreachable and the call succeeds. -/
theorem deploy_asserts_route_starts_with_slash (st : ControllerState) (name : String)
    (backendConfig : BackendConfig) (replicaConfig : ReplicaConfig)
    (version : Option String) :
    (∀ p, pystartswith p "/" = false →
      (deploy st name backendConfig replicaConfig version (some p)).1 = .error .assertionError
      ∧ (deploy st name backendConfig replicaConfig version (some p)).2 = st)
    ∧ (∀ routePfx : Option String, routePfx.all (fun p => pystartswith p "/") = true →
      ((deploy st name backendConfig replicaConfig version routePfx).1).isOk = true) := by
  constructor
  · intro p hp
    simp [deploy, hp]
  · intro routePfx hall
    cases routePfx with
    | none => simp [deploy, deployLocked, Except.isOk, Except.toBool]
    | some p =>
      have hp : pystartswith p "/" = true := by simpa [Option.all] using hall
      simp [deploy, hp, deployLocked, Except.isOk, Except.toBool]

theorem deploy_asserts_witness :
    ((deploy wc9St "d" wc9Bc wc9Rc none (some "noslash")).1 = .error .assertionError
      ∧ (deploy wc9St "d" wc9Bc wc9Rc none (some "noslash")).2 = wc9St)
    ∧ ((deploy wc9St "d" wc9Bc wc9Rc none (some "/ok")).1).isOk = true := by
  have h := deploy_asserts_route_starts_with_slash wc9St "d" wc9Bc wc9Rc none
  exact ⟨h.1 "noslash" (by decide), h.2 (some "/ok") (by decide)⟩

/-- C10: get_deployment_info raises KeyError exactly when no backend of that
name is registered; otherwise it returns the registered BackendInfo paired with
the endpoint route. The embedding is a pure accessor on the state, matching the
read-only Python body, so it mutates nothing. -/
theorem get_deployment_info_spec (st : ControllerState) (name : String) :
    (isKeyError (get_deployment_info st name) = true ↔ get_backend st name = none)
    ∧ (∀ info, get_backend st name = some info →
        get_deployment_info st name = .ok (info, get_endpoint_route st name)) := by
  unfold get_deployment_info
  cases h : get_backend st name with
  | none => simp [h, isKeyError]
  | some info =>
    constructor
    · simp [isKeyError, h]
    · intro info2 hinfo
      cases hinfo
      rfl

theorem get_deployment_info_witness :
    get_deployment_info wc10St "b" = .ok (wc10Info, some "/b")
    ∧ isKeyError (get_deployment_info wc10St "nope") = true := by
  have h1 := (get_deployment_info_spec wc10St "b").2 wc10Info rfl
  have h2 := (get_deployment_info_spec wc10St "nope").1.mpr rfl
  exact ⟨h1, h2⟩

end ServeController
